import Mathlib

/-!
Verification of the MajsoulUID protocol client (`majs_notify/majsoul.py`)
against its natural-language specification.  Each Python routine relevant to
the claims is shallowly embedded as an executable Lean definition, and the
claims are settled as theorems about those definitions.
-/

namespace Majsoul

/-! ## Connection dispatch loop: RESPONSE correlation (C1)

Embeds the RESPONSE branch of `MajsoulConnection.dispatch_msg`
(majsoul.py lines 336-341):

    if data.msg_type == self._codec.RESPONSE:
        idx = data.req_index
        if idx not in self._req_events:
            continue
        self._res[idx] = data
        self._req_events[idx].set()
-/

/-- Decoded payload of a RESPONSE frame (abstract; only equality matters). -/
abbrev Payload := String

/-- Correlation state of one connection.  `req_events` maps a sequence index
to `some b` when a PendingCall is outstanding there (`b` records whether its
event has already been set), mirroring the dict `self._req_events`; `res`
holds the stored response payloads, mirroring `self._res`. -/
structure DispatchState where
  req_events : Nat → Option Bool
  res : Nat → Option Payload

/-- Effect of processing one RESPONSE frame with sequence index `idx` and
payload `p` in `MajsoulConnection.dispatch_msg`: an index absent from
`_req_events` is discarded (state unchanged, no error); a present index has
the payload stored in `_res` and its event set. -/
def dispatch_msg_response (st : DispatchState) (idx : Nat) (p : Payload) :
    DispatchState :=
  match st.req_events idx with
  | none => st
  | some _ =>
    { req_events := fun j => if j = idx then some true else st.req_events j
      res := fun j => if j = idx then some p else st.res j }

/-- C1: a RESPONSE frame whose sequence index has no PendingCall in the
correlation table is discarded without error and leaves the correlation table
and every result slot unchanged; for a present index, the payload is stored
and that waiter alone is resolved (every other index keeps its event flag and
result slot). -/
theorem C1_response_dispatch (st : DispatchState) (idx : Nat) (p : Payload) :
    (st.req_events idx = none → dispatch_msg_response st idx p = st) ∧
    (∀ b, st.req_events idx = some b →
      (dispatch_msg_response st idx p).res idx = some p ∧
      (dispatch_msg_response st idx p).req_events idx = some true ∧
      ∀ j, j ≠ idx →
        (dispatch_msg_response st idx p).res j = st.res j ∧
        (dispatch_msg_response st idx p).req_events j = st.req_events j) := by
  constructor
  · intro h
    simp [dispatch_msg_response, h]
  · intro b hb
    refine ⟨?_, ?_, ?_⟩
    · simp [dispatch_msg_response, hb]
    · simp [dispatch_msg_response, hb]
    · intro j hj
      constructor <;> simp [dispatch_msg_response, hb, hj]

/-- Concrete correlation state with a single pending call at index 0. -/
def dispatchStateW : DispatchState :=
  { req_events := fun j => if j = 0 then some false else none
    res := fun _ => none }

/-- Witness for C1: at the concrete state `dispatchStateW`, a RESPONSE with
unknown index 5 is discarded unchanged, and a RESPONSE with pending index 0
stores its payload while leaving index 1 untouched. -/
theorem C1_response_dispatch_witness :
    dispatch_msg_response dispatchStateW 5 "pay" = dispatchStateW ∧
    (dispatch_msg_response dispatchStateW 0 "pay").res 0 = some "pay" ∧
    (dispatch_msg_response dispatchStateW 0 "pay").req_events 1 = none := by
  refine ⟨(C1_response_dispatch dispatchStateW 5 "pay").1 rfl,
    ((C1_response_dispatch dispatchStateW 0 "pay").2 false rfl).1,
    (((C1_response_dispatch dispatchStateW 0 "pay").2 false rfl).2.2 1
      (by decide)).2⟩

/-! ## Authentication retry (C8)

Embeds the token-validation part of `MajsoulConnection.accessTokenLogin`
(majsoul.py lines 394-412):

    resp = ... rpc_call -dot-lq.Lobby.oauth2Check- ...
    if not resp.has_account:
        await asyncio.sleep(2)
        resp = ... rpc_call -dot-lq.Lobby.oauth2Check- ...
    if not resp.has_account:
        raise ValueError of Failed to check account
    ...proceed to oauth2Login / loginBeat...
-/

/-- Outcome of the token-validation phase of authentication. -/
inductive AuthOutcome where
  | noAccountError
  | proceed
  deriving DecidableEq

/-- Observable trace of the validation phase: how many `oauth2Check` calls
were issued, whether the intervening pause (`asyncio.sleep(2)`) happened, and
whether authentication failed or proceeded to session establishment. -/
structure AuthTrace where
  checkCalls : Nat
  slept : Bool
  outcome : AuthOutcome
  deriving DecidableEq

/-- Token-validation logic of `accessTokenLogin`.  `check1` and `check2` are
the `has_account` fields of the responses the service would give to the first
and second `oauth2Check` call respectively; the second call is only issued
when the first reports no linked account. -/
def accessTokenLogin_check (check1 check2 : Bool) : AuthTrace :=
  if check1 then
    { checkCalls := 1, slept := false, outcome := .proceed }
  else if check2 then
    { checkCalls := 2, slept := true, outcome := .proceed }
  else
    { checkCalls := 2, slept := true, outcome := .noAccountError }

/-- C8: when the first validation reports no linked account the client pauses
and retries exactly once (never more than two validation calls in total);
authentication fails with an error exactly when both attempts report no
account, and proceeds to session establishment exactly when some attempt
reports a valid account; a retry always has the intervening pause. -/
theorem C8_auth_retry_once (check1 check2 : Bool) :
    (accessTokenLogin_check check1 check2).checkCalls ≤ 2 ∧
    ((accessTokenLogin_check check1 check2).checkCalls = 2 ↔ check1 = false) ∧
    ((accessTokenLogin_check check1 check2).outcome = .noAccountError ↔
      check1 = false ∧ check2 = false) ∧
    ((accessTokenLogin_check check1 check2).outcome = .proceed ↔
      check1 = true ∨ check2 = true) ∧
    ((accessTokenLogin_check check1 check2).slept ↔ check1 = false) := by
  revert check1 check2
  decide

/-! ## Composite match identifier parsing (C9)

Embeds the parsing prologue of `MajsoulConnection.fetchLogs`
(majsoul.py lines 508-520):

    seps = game_id.split underscore
    log_id = seps[0]
    if len(seps) >= 3 and seps[2] == the digit two:
        log_id = decode_log_id(log_id)
    target_id = None
    if len(seps) >= 2:
        if seps[1][0] == the letter a:
            target_id = decode_account_id(int(seps[1][1:]))
        else:
            target_id = int(seps[1])

`decode_log_id` and `decode_account_id` live in `utils/api/remote` (not in
the examined sources), so they are kept abstract as function parameters. -/

/-- Errors the embedded Python code can raise: `IndexError` from indexing an
empty sequence, `ValueError` from `int()` on a non-numeric string,
`FileNotFoundError` and `json.JSONDecodeError` from an unguarded read of the
attribution file. -/
inductive PyErr where
  | indexError
  | valueError
  | fileNotFoundError
  | jsonDecodeError
  deriving DecidableEq

/-- Python `str.split` on a single-character separator, over character
lists: the empty input yields one empty segment, and every separator
occurrence opens a new segment. -/
def pySplitChar (sep : Char) : List Char → List (List Char)
  | [] => [[]]
  | c :: rest =>
    if c = sep then [] :: pySplitChar sep rest
    else
      match pySplitChar sep rest with
      | [] => [[c]]
      | g :: gs => (c :: g) :: gs

/-- Python `str.split(sep)` for a one-character separator. -/
def pySplit (sep : Char) (s : String) : List (List Char) :=
  pySplitChar sep s.data

/-- Python `int()` on the decimal digit strings reaching it in `fetchLogs`:
a non-numeric (in particular empty) string raises `ValueError`. -/
def pyInt (cs : List Char) : Except PyErr Nat :=
  if cs ≠ [] ∧ cs.all (·.isDigit) then
    .ok (cs.foldl (fun acc c => acc * 10 + (c.toNat - 48)) 0)
  else .error .valueError

/-- Match-identifier parsing of `fetchLogs`: returns the (possibly decoded)
log id and the optional target account id.  `decode_log_id` and
`decode_account_id` are the obfuscated-id decoders, abstract here. -/
def fetchLogs_parse (decode_log_id : String → String)
    (decode_account_id : Nat → Nat) (game_id : String) :
    Except PyErr (String × Option Nat) :=
  let seps := pySplit '_' game_id
  let log_id := String.mk (seps.getD 0 [])
  let log_id :=
    if seps.length ≥ 3 ∧ seps.getD 2 [] = ['2'] then decode_log_id log_id
    else log_id
  if seps.length ≥ 2 then
    match seps.getD 1 [] with
    | [] => .error .indexError
    | c :: rest =>
      if c = 'a' then
        match pyInt rest with
        | .ok n => .ok (log_id, some (decode_account_id n))
        | .error e => .error e
      else
        match pyInt (c :: rest) with
        | .ok n => .ok (log_id, some n)
        | .error e => .error e
  else
    .ok (log_id, none)

/-- C9: parsing the composite identifier `123456_a789_2` decodes the log id
through the obfuscated-log-id decoder (third segment is `2`) and the target
account id through the obfuscated-account-id decoder applied to 789 (second
segment prefixed by `a`); a purely numeric second segment is used directly as
the target id. -/
theorem C9_fetchLogs_parse (d1 : String → String) (d2 : Nat → Nat) :
    fetchLogs_parse d1 d2 "123456_a789_2" = .ok (d1 "123456", some (d2 789)) ∧
    fetchLogs_parse d1 d2 "123456_789" = .ok ("123456", some 789) := by
  constructor <;> rfl

/-! ## Manager online check (C10)

Embeds `MajsoulManager.is_online` (majsoul.py lines 670-673):

    if self.conn is []:
        return False
    return await self.conn[0].check_alive()
-/

/-- One held session of the manager, reduced to what the manager-level
operations observe: the ids of its background tasks and of its transport. -/
structure Session where
  bg_tasks : List Nat
  ws : Nat
  deriving DecidableEq

/-- Manager state: the list `self.conn` of held sessions. -/
structure MgrState where
  conn : List Session
  deriving DecidableEq

/-- Python identity comparison of a list attribute against a freshly
constructed empty list literal: `xs is []` builds a new list object, so the
comparison is False for every `xs`, including an empty one. -/
def pyIsFreshEmptyList (_xs : List Session) : Bool := false

/-- Embedding of `MajsoulManager.is_online`: the guard uses the identity
comparison above, then `self.conn[0]` is accessed, raising `IndexError` on an
empty list.  `check_alive` is abstract. -/
def is_online (check_alive : Session → Bool) (s : MgrState) :
    Except PyErr Bool :=
  if pyIsFreshEmptyList s.conn then .ok false
  else
    match s.conn with
    | [] => .error .indexError
    | c :: _ => .ok (check_alive c)

/-! ## Manager restart (C7)

Embeds `MajsoulManager.restart` (majsoul.py lines 657-665):

    if self.conn:
        if len(self.conn) >= 1:
            for task in self.conn[0].bg_tasks:
                task.cancel()
        for conn in self.conn:
            await conn._ws.close()
    self.conn = []
    return await self.start()

Note that only `self.conn[0]`, the first held session, has its background
tasks cancelled, while the transport of every session is closed.  `start()`
performs network and database work, so it is kept abstract as a function on
manager states. -/

/-- Observable effects of one `restart()` call: the ids of the background
tasks that were cancelled and of the transports that were closed. -/
structure RestartEffects where
  cancelled : List Nat
  closed : List Nat
  deriving DecidableEq

/-- Embedding of `MajsoulManager.restart`: with a non-empty session list the
first session's background tasks are cancelled and every session's transport
is closed; then the session list is discarded and `start` is re-run. -/
def restart (start : MgrState → MgrState) (s : MgrState) :
    RestartEffects × MgrState :=
  let eff : RestartEffects :=
    match s.conn with
    | [] => { cancelled := [], closed := [] }
    | c :: _ => { cancelled := c.bg_tasks, closed := s.conn.map (·.ws) }
  (eff, start { conn := [] })

/-- The claim C7 as stated, as a predicate on a manager state: every held
session's background tasks are all cancelled, every transport is closed, and
the rebuilt state is `start` on an emptied manager. -/
def restart_cancels_all (start : MgrState → MgrState) (s : MgrState) : Prop :=
  (∀ sess ∈ s.conn, ∀ t ∈ sess.bg_tasks, t ∈ (restart start s).1.cancelled) ∧
  (∀ sess ∈ s.conn, sess.ws ∈ (restart start s).1.closed) ∧
  (restart start s).2 = start { conn := [] }

/-- A manager holding two sessions; the second session's background task 99
is never cancelled by `restart`. -/
def mgrTwoSessions : MgrState :=
  { conn := [{ bg_tasks := [1], ws := 10 }, { bg_tasks := [99], ws := 20 }] }

/-- Counterexample to C7 as stated: on a manager holding two sessions,
`restart` does not cancel the background tasks of every held session (task
99 of the second session survives). -/
theorem C7_restart_counterexample :
    ¬ restart_cancels_all id mgrTwoSessions := by
  intro h
  have h99 := h.1 { bg_tasks := [99], ws := 20 } (by decide) 99 (by decide)
  simp [restart, mgrTwoSessions] at h99

/-- C7 amended: `restart` cancels the background tasks of the FIRST held
session only, closes the transport of every held session, discards all
sessions and re-runs `start` on the emptied manager. -/
theorem C7_restart_first_session_only (start : MgrState → MgrState)
    (s : MgrState) :
    (restart start s).1.cancelled = (s.conn.head?).elim [] Session.bg_tasks ∧
    (∀ sess ∈ s.conn, sess.ws ∈ (restart start s).1.closed) ∧
    (restart start s).2 = start { conn := [] } := by
  obtain ⟨conn⟩ := s
  refine ⟨?_, ?_, rfl⟩
  · cases conn <;> rfl
  · intro sess hs
    cases conn with
    | nil => cases hs
    | cons c rest =>
      simp only [restart, List.mem_map]
      exact ⟨sess, hs, rfl⟩

/-- Witness for the amended C7 at the concrete two-session manager: only the
first session's task 1 is cancelled, and the second session's transport 20 is
among the closed transports. -/
theorem C7_restart_first_session_only_witness :
    (restart id mgrTwoSessions).1.cancelled = [1] ∧
    (20 : Nat) ∈ (restart id mgrTwoSessions).1.closed :=
  ⟨(C7_restart_first_session_only id mgrTwoSessions).1.trans rfl,
   (C7_restart_first_session_only id mgrTwoSessions).2.1
     { bg_tasks := [99], ws := 20 } (by decide)⟩

/-- C10: on a manager with no sessions, `is_online` does not return `False`:
the identity-based emptiness guard never fires, so the first-session access
raises an out-of-range indexing error. -/
theorem C10_is_online_empty (check_alive : Session → Bool) :
    is_online check_alive { conn := [] } = .error .indexError ∧
    is_online check_alive { conn := [] } ≠ .ok false := by
  refine ⟨rfl, ?_⟩
  intro h
  simp [is_online, pyIsFreshEmptyList] at h

/-! ## Social state: friend registry and state-change notifications (C3-C5)

Embeds the data touched by `handle_FriendStateChange` (majsoul.py lines
152-212) and `handle_FriendChange` (lines 268-299).  The `MajsoulFriend`
wrapper class lives in `majsoul_friend.py`, which is not among the examined
sources; its fields and its `change_state` method are modelled from the
spec (see the doc comments below). -/

/-- Current-match descriptor of an activity snapshot
(`AccountActiveState.playing`, with the nested `meta.mode_id` flattened). -/
structure PlayingState where
  game_uuid : String
  category : Nat
  mode_id : Nat
  deriving DecidableEq

/-- Protobuf message truthiness as used by `not active_state.playing` and
`friend.playing`: a message is truthy when some field differs from its
default. -/
def PlayingState.truthy (p : PlayingState) : Bool :=
  p.game_uuid != "" || p.category != 0 || p.mode_id != 0

/-- Activity snapshot carried by a state-change notification
(`AccountActiveState`). -/
structure AccountActiveState where
  is_online : Bool
  playing : PlayingState
  deriving DecidableEq

/-- Modelled from the spec: the in-memory friend entry (`MajsoulFriend`,
defined in the unexamined `majsoul_friend.py`) holds the account id, the
nickname, the online flag and the current-match descriptor that the handlers
read and write. -/
structure Friend where
  account_id : Nat
  nickname : String
  is_online : Bool
  playing : PlayingState
  deriving DecidableEq

/-- Modelled from the spec: `MajsoulFriend.change_state` (in the unexamined
`majsoul_friend.py`) unconditionally replaces the friend's stored state with
the notification's snapshot. -/
def Friend.change_state (f : Friend) (st : AccountActiveState) : Friend :=
  { f with is_online := st.is_online, playing := st.playing }

/-- Payload of `.lq.NotifyFriendStateChange`. -/
structure FriendStateNotify where
  target_id : Nat
  active_state : AccountActiveState
  deriving DecidableEq

/-- Event messages the state-change handler can assign to `msg`; `none`
models the empty string, i.e. no event is emitted. -/
inductive StateMsg where
  | online (nick : String)
  | offline (nick : String)
  | matchStart (nick : String) (category : Nat) (mode_id : Nat) (uuid : String)
  | matchEnd (nick : String) (mode_id : Nat) (uuid : String) (account : Nat)
  deriving DecidableEq

/-- Contents of the attribution file `game_record.json` on disk as one
handler run sees it: missing, unparsable JSON, or a JSON object mapping match
ids to account ids. -/
inductive FileState where
  | missing
  | corrupt
  | ok (m : List (String × Nat))
  deriving DecidableEq

/-- Python dict assignment `game_record[k] = v` on the JSON object. -/
def setRecord (m : List (String × Nat)) (k : String) (v : Nat) :
    List (String × Nat) :=
  if m.any (·.1 = k) then m.map (fun kv => if kv.1 = k then (k, v) else kv)
  else m ++ [(k, v)]

/-- State threaded through the `for friend in self.friends` loop of
`handle_FriendStateChange`: the friends processed so far (with their updates
applied), the attribution file on disk, and the current value of `msg`. -/
structure FSCAcc where
  friends_done : List Friend
  file : FileState
  msg : Option StateMsg
  deriving DecidableEq

/-- One iteration of the `for friend in self.friends` loop of
`handle_FriendStateChange` (majsoul.py lines 157-210).  For a matching
friend: the online-flag diff may assign `msg`; the attribution file is read
with `FileNotFoundError`/`JSONDecodeError` recovered to an empty map; a
match-start transition overwrites `msg` and amends the map; a match-end
transition re-reads the file WITHOUT any exception handler (lines 195-196),
then overwrites `msg` and amends the map; the map is then written back and
the friend's stored state replaced by the snapshot.  A non-matching friend is
left untouched. -/
def handle_FriendStateChange_step (nf : FriendStateNotify) (acc : FSCAcc)
    (friend : Friend) : Except PyErr FSCAcc :=
  if friend.account_id = nf.target_id then
    let msg1 : Option StateMsg :=
      if nf.active_state.is_online && !friend.is_online then
        some (.online friend.nickname)
      else if !nf.active_state.is_online && friend.is_online then
        some (.offline friend.nickname)
      else acc.msg
    let game_record : List (String × Nat) :=
      match acc.file with
      | .ok m => m
      | _ => []
    if nf.active_state.playing.game_uuid ≠ "" ∧
        friend.playing.game_uuid = "" then
      .ok { friends_done :=
              acc.friends_done ++ [friend.change_state nf.active_state]
            file := .ok (setRecord game_record
              nf.active_state.playing.game_uuid friend.account_id)
            msg := some (.matchStart friend.nickname
              nf.active_state.playing.category
              nf.active_state.playing.mode_id
              nf.active_state.playing.game_uuid) }
    else if ¬ nf.active_state.playing.truthy ∧ friend.playing.truthy then
      match acc.file with
      | .missing => .error .fileNotFoundError
      | .corrupt => .error .jsonDecodeError
      | .ok m =>
        .ok { friends_done :=
                acc.friends_done ++ [friend.change_state nf.active_state]
              file := .ok (setRecord m friend.playing.game_uuid
                friend.account_id)
              msg := some (.matchEnd friend.nickname friend.playing.mode_id
                friend.playing.game_uuid friend.account_id) }
    else
      .ok { friends_done :=
              acc.friends_done ++ [friend.change_state nf.active_state]
            file := .ok game_record
            msg := msg1 }
  else
    .ok { acc with friends_done := acc.friends_done ++ [friend] }

/-- The `for friend in self.friends` loop of `handle_FriendStateChange`,
propagating the first uncaught exception. -/
def handle_FriendStateChange_loop (nf : FriendStateNotify) :
    FSCAcc → List Friend → Except PyErr FSCAcc
  | acc, [] => .ok acc
  | acc, f :: rest =>
    match handle_FriendStateChange_step nf acc f with
    | .error e => .error e
    | .ok acc' => handle_FriendStateChange_loop nf acc' rest

/-- Embedding of `MajsoulConnection.handle_FriendStateChange`: runs the loop
over the friend registry starting from an empty `msg`, returning the updated
registry, the attribution file on disk, and the message to emit (if any). -/
def handle_FriendStateChange (file : FileState) (friends : List Friend)
    (nf : FriendStateNotify) :
    Except PyErr (List Friend × FileState × Option StateMsg) :=
  match handle_FriendStateChange_loop nf
      { friends_done := [], file := file, msg := none } friends with
  | .error e => .error e
  | .ok acc => .ok (acc.friends_done, acc.file, acc.msg)

/-- A friend in mid-match (non-empty current-match descriptor). -/
def friendInMatch : Friend :=
  { account_id := 7, nickname := "alice", is_online := true
    playing := { game_uuid := "g1", category := 2, mode_id := 9 } }

/-- Notification for account 7 whose snapshot has no current match: together
with `friendInMatch` it is the present-to-absent transition. -/
def endMatchNotify : FriendStateNotify :=
  { target_id := 7
    active_state :=
      { is_online := true
        playing := { game_uuid := "", category := 0, mode_id := 0 } } }

/-- An offline friend with no current match. -/
def friendOffline : Friend :=
  { account_id := 7, nickname := "alice", is_online := false
    playing := { game_uuid := "", category := 0, mode_id := 0 } }

/-- Notification for account 7 going online, no current match. -/
def onlineNotify : FriendStateNotify :=
  { target_id := 7
    active_state :=
      { is_online := true
        playing := { game_uuid := "", category := 0, mode_id := 0 } } }

/-- C4: the claim says a missing or unparsable `game_record.json` is treated
as an empty map and never makes the handler fail — but on the
present-to-absent (match-end) transition the file is re-opened without any
exception handler, so a missing file raises `FileNotFoundError` and a corrupt
one raises `JSONDecodeError`; on other transitions (here: coming online) the
guarded read does recover a missing file to the empty map and the handler
succeeds. -/
theorem C4_attribution_file_bug :
    handle_FriendStateChange .missing [friendInMatch] endMatchNotify =
      .error .fileNotFoundError ∧
    handle_FriendStateChange .corrupt [friendInMatch] endMatchNotify =
      .error .jsonDecodeError ∧
    handle_FriendStateChange .missing [friendOffline] onlineNotify =
      .ok ([friendOffline.change_state onlineNotify.active_state], .ok [],
        some (.online "alice")) := by
  refine ⟨rfl, rfl, rfl⟩

/-- A friend whose stored state already agrees with the snapshot of `nf`
(vacuously, any friend that is not the notification's target). -/
def FriendStateNotify.settled (nf : FriendStateNotify) (f : Friend) : Prop :=
  f.account_id = nf.target_id →
    f.is_online = nf.active_state.is_online ∧
    f.playing = nf.active_state.playing

/-- On a settled friend and a readable attribution file, one loop iteration
changes nothing: the friend is re-appended unchanged, the file keeps its
contents and `msg` is not assigned. -/
theorem handle_FriendStateChange_step_settled (nf : FriendStateNotify)
    (acc : FSCAcc) (f : Friend) (m : List (String × Nat))
    (hf : acc.file = .ok m) (hs : nf.settled f) :
    handle_FriendStateChange_step nf acc f =
      .ok { friends_done := acc.friends_done ++ [f], file := .ok m,
            msg := acc.msg } := by
  obtain ⟨a, nick, onl, pl⟩ := f
  by_cases h : a = nf.target_id
  · have ho : onl = nf.active_state.is_online := (hs h).1
    have hp : pl = nf.active_state.playing := (hs h).2
    subst ho hp
    simp [handle_FriendStateChange_step, h, hf, Friend.change_state]
  · simp only [handle_FriendStateChange_step]
    rw [if_neg h, ← hf]

/-- Running the loop over a list of settled friends from a readable file is
the identity on the registry, the file contents and `msg`. -/
theorem handle_FriendStateChange_loop_settled (nf : FriendStateNotify)
    (fs : List Friend) :
    ∀ (acc : FSCAcc) (m : List (String × Nat)), acc.file = .ok m →
      (∀ f ∈ fs, nf.settled f) →
      handle_FriendStateChange_loop nf acc fs =
        .ok { friends_done := acc.friends_done ++ fs, file := .ok m,
              msg := acc.msg } := by
  induction fs with
  | nil =>
    intro acc m hf _
    obtain ⟨d, fl, ms⟩ := acc
    simp only at hf
    subst hf
    simp [handle_FriendStateChange_loop]
  | cons f rest ih =>
    intro acc m hf hall
    have hstep := handle_FriendStateChange_step_settled nf acc f m hf
      (hall f (by simp))
    have htail := ih ⟨acc.friends_done ++ [f], .ok m, acc.msg⟩ m rfl
      (fun g hg => hall g (by simp [hg]))
    simp only [handle_FriendStateChange_loop, hstep, htail]
    simp

/-- Inversion of one successful loop iteration starting from a readable
file: the registry grows by one friend with the same account id whose new
stored state is settled with respect to the notification, and the file stays
readable. -/
theorem handle_FriendStateChange_step_inv (nf : FriendStateNotify)
    (acc : FSCAcc) (f : Friend) (m : List (String × Nat)) (acc₁ : FSCAcc)
    (hf : acc.file = .ok m)
    (h : handle_FriendStateChange_step nf acc f = .ok acc₁) :
    ∃ f' m', acc₁.friends_done = acc.friends_done ++ [f'] ∧
      f'.account_id = f.account_id ∧ nf.settled f' ∧ acc₁.file = .ok m' := by
  unfold handle_FriendStateChange_step at h
  simp only [hf] at h
  by_cases hmatch : f.account_id = nf.target_id
  · rw [if_pos hmatch] at h
    split at h
    · cases h
      exact ⟨f.change_state nf.active_state, _, rfl, rfl,
        fun _ => ⟨rfl, rfl⟩, rfl⟩
    · split at h
      · cases h
        exact ⟨f.change_state nf.active_state, _, rfl, rfl,
          fun _ => ⟨rfl, rfl⟩, rfl⟩
      · cases h
        exact ⟨f.change_state nf.active_state, _, rfl, rfl,
          fun _ => ⟨rfl, rfl⟩, rfl⟩
  · rw [if_neg hmatch] at h
    cases h
    exact ⟨f, m, rfl, rfl, fun hh => absurd hh hmatch, rfl⟩

/-- Inversion of a successful loop run from a readable file: the processed
registry extends the accumulator by friends with the original account ids,
every processed friend is settled, and the file stays readable. -/
theorem handle_FriendStateChange_loop_inv (nf : FriendStateNotify)
    (fs : List Friend) :
    ∀ (acc : FSCAcc) (m : List (String × Nat)) (acc' : FSCAcc),
      acc.file = .ok m →
      handle_FriendStateChange_loop nf acc fs = .ok acc' →
      ∃ suffix m', acc'.friends_done = acc.friends_done ++ suffix ∧
        suffix.map Friend.account_id = fs.map Friend.account_id ∧
        (∀ f ∈ suffix, nf.settled f) ∧ acc'.file = .ok m' := by
  induction fs with
  | nil =>
    intro acc m acc' hf h
    simp only [handle_FriendStateChange_loop] at h
    cases h
    exact ⟨[], m, by simp, rfl, by simp, hf⟩
  | cons f rest ih =>
    intro acc m acc' hf h
    cases hstep : handle_FriendStateChange_step nf acc f with
    | error e =>
      simp only [handle_FriendStateChange_loop, hstep] at h
      exact Except.noConfusion h
    | ok acc₁ =>
      have hrest : handle_FriendStateChange_loop nf acc₁ rest = .ok acc' := by
        simpa [handle_FriendStateChange_loop, hstep] using h
      obtain ⟨f', m₁, hdone, hacct, hsettled, hfile⟩ :=
        handle_FriendStateChange_step_inv nf acc f m acc₁ hf hstep
      obtain ⟨suffix, m', hdone', hmap, hsett', hfile'⟩ :=
        ih acc₁ m₁ acc' hfile hrest
      refine ⟨f' :: suffix, m', ?_, ?_, ?_, hfile'⟩
      · rw [hdone', hdone, List.append_assoc]
        rfl
      · simp [hmap, hacct]
      · intro g hg
        rcases List.mem_cons.mp hg with hg | hg
        · exact hg ▸ hsettled
        · exact hsett' g hg

/-- C5: when a state-change notification is applied successfully, every
friend of the resulting registry that matches the target carries exactly the
notification's snapshot (account ids are preserved, so a friend present
before stays present); the resulting attribution file is readable, and
re-applying the same notification leaves registry and file unchanged and
emits no event. -/
theorem C5_state_change_replay (m : List (String × Nat))
    (friends : List Friend) (nf : FriendStateNotify)
    (out : List Friend × FileState × Option StateMsg)
    (h1 : handle_FriendStateChange (.ok m) friends nf = .ok out) :
    out.1.map Friend.account_id = friends.map Friend.account_id ∧
    (∀ f ∈ out.1, f.account_id = nf.target_id →
      f.is_online = nf.active_state.is_online ∧
      f.playing = nf.active_state.playing) ∧
    ∃ m₁, out.2.1 = .ok m₁ ∧
      handle_FriendStateChange out.2.1 out.1 nf =
        .ok (out.1, out.2.1, none) := by
  unfold handle_FriendStateChange at h1
  cases hloop : handle_FriendStateChange_loop nf
      { friends_done := [], file := .ok m, msg := none } friends with
  | error e => rw [hloop] at h1; cases h1
  | ok acc =>
    rw [hloop] at h1
    injection h1 with h1
    subst h1
    obtain ⟨suffix, m₁, hdone, hmap, hsett, hfile⟩ :=
      handle_FriendStateChange_loop_inv nf friends
        { friends_done := [], file := .ok m, msg := none } m acc rfl hloop
    simp only [List.nil_append] at hdone
    subst hdone
    refine ⟨hmap, fun f hf => hsett f hf, m₁, hfile, ?_⟩
    unfold handle_FriendStateChange
    rw [hfile, handle_FriendStateChange_loop_settled nf acc.friends_done
      { friends_done := [], file := .ok m₁, msg := none } m₁ rfl hsett]
    simp

/-- The run of the state-change handler used by the C5 witness. -/
def replayOut : List Friend × FileState × Option StateMsg :=
  ([friendOffline.change_state onlineNotify.active_state], .ok [],
    some (.online "alice"))

/-- Witness for C5 at a concrete input: applying `onlineNotify` to the
one-friend registry `[friendOffline]` yields `replayOut`, whose registry
keeps account id 7, and re-applying the notification returns the same
registry and file with no event. -/
theorem C5_state_change_replay_witness :
    replayOut.1.map Friend.account_id =
      [friendOffline].map Friend.account_id ∧
    handle_FriendStateChange replayOut.2.1 replayOut.1 onlineNotify =
      .ok (replayOut.1, replayOut.2.1, none) := by
  have h := C5_state_change_replay [] [friendOffline] onlineNotify
    replayOut rfl
  obtain ⟨m₁, _, hrun⟩ := h.2.2
  exact ⟨h.1, hrun⟩

/-! ## Friend-list membership notifications (C3)

Embeds `MajsoulConnection.handle_FriendChange` (majsoul.py lines 268-299).
The `type == 1` branch is

    for friend in self.friends:
        if friend.account_id == data.account_id:
            meta_msg = ...already in the friend list...
            logger.error(meta_msg)
    else:
        friend = MajsoulFriend(data.friend)
        self.friends.append(friend)
        meta_msg = ...successfully added...
        if data.account_id in self.friend_apply_list:
            self.friend_apply_list.remove(data.account_id)

The `else` is attached to the `for` loop and the loop body contains no
`break`, so the else clause executes on every run — the friend is appended
whether or not the account id was already present, and the already-present
message computed inside the loop is always overwritten. -/

/-- Payload of `.lq.NotifyFriendChange`.  The `friend` field carries the
friend data to store; the `MajsoulFriend(data.friend)` wrapper is modelled
from the spec as copying that data unchanged. -/
structure FriendChangeNotify where
  account_id : Nat
  type : Nat
  friend : Friend
  deriving DecidableEq

/-- Meta messages `handle_FriendChange` can emit; `none` models the empty
string (nothing sent). -/
inductive MetaMsg where
  | added (nick : String)
  | removed (nick : String)
  | updated (nick : String)
  deriving DecidableEq

/-- Embedding of `handle_FriendChange` acting on the friend registry and the
pending-application list, returning the new registry, the new pending list
and the meta message finally sent. -/
def handle_FriendChange (friends : List Friend) (apply_list : List Nat)
    (data : FriendChangeNotify) : List Friend × List Nat × Option MetaMsg :=
  if data.type = 1 then
    let friends' := friends ++ [data.friend]
    let apply' :=
      if data.account_id ∈ apply_list then apply_list.erase data.account_id
      else apply_list
    (friends', apply', some (.added data.friend.nickname))
  else if data.type = 2 then
    match friends.find? (·.account_id = data.account_id) with
    | some f => (friends.erase f, apply_list, some (.removed f.nickname))
    | none => (friends, apply_list, none)
  else
    if friends.any (·.account_id = data.account_id) then
      (friends, apply_list, some (.updated data.friend.nickname))
    else (friends, apply_list, none)

/-- A registry already holding account 7 as a friend. -/
def friendsWithBob : List Friend :=
  [{ account_id := 7, nickname := "bob", is_online := true
     playing := { game_uuid := "", category := 0, mode_id := 0 } }]

/-- A type-1 (add) friend-list notification for the same account 7. -/
def addBobNotify : FriendChangeNotify :=
  { account_id := 7, type := 1
    friend := { account_id := 7, nickname := "bob", is_online := true
                playing := { game_uuid := "", category := 0, mode_id := 0 } } }

/-- C3: the claim says a type-1 add whose account id is already in the
registry is ignored, so no duplicate entry can arise — but the `else` of the
`for` loop always runs (the loop has no `break`), so the friend is appended
again and the registry then holds two entries with account id 7.  The
claim's second half does hold: on a genuinely new add, a matching pending
application is removed. -/
theorem C3_friend_add_duplicate_bug :
    ((handle_FriendChange friendsWithBob [] addBobNotify).1.countP
      (·.account_id = 7) = 2) ∧
    (handle_FriendChange [] [7, 9] addBobNotify =
      ([addBobNotify.friend], [9], some (.added "bob"))) := by
  refine ⟨by decide, by decide⟩

/-! ## Replay decoding: version-dependent action list (C6)

Embeds the action-list construction of `MajsoulConnection.fetchLogs`
(majsoul.py lines 536-551):

    action_list = []
    if payload.version < 210715 and len(payload.records) > 0:
        for value in payload.records:
            raw = liblq.Wrapper().parse(value)
            name = raw.name.split(dot)[2]
            msg = getattr(liblq, name)().parse(raw.data)
            action_list.append(MjsLogItem(name=name, data=msg))
    else:
        for action in payload.actions:
            if action.result and len(action.result) > 0:
                raw = liblq.Wrapper().parse(action.result)
                ...same unwrapping...

`liblq.Wrapper().parse` is the schema decoder, abstracted as a function
parameter; the reflective `getattr` decode is abstracted by keeping the type
name together with the bytes handed to the selected decoder. -/

/-- Raw protobuf bytes. -/
abbrev Bytes := List Nat

/-- A parsed `Wrapper` message: a self-describing record whose `name` field
embeds the concrete type and whose `data` field holds the nested encoding. -/
structure Wrapper where
  name : String
  data : Bytes
  deriving DecidableEq

/-- One structured entry of `GameDetailRecords.actions`; only its `result`
field is read (`action.result and len(action.result) > 0` is non-emptiness
of the bytes). -/
structure GameAction where
  result : Bytes
  deriving DecidableEq

/-- The decoded inner `GameDetailRecords` payload. -/
structure GameDetailRecords where
  version : Nat
  records : List Bytes
  actions : List GameAction
  deriving DecidableEq

/-- One transcript entry (`MjsLogItem`): the extracted type name and the
bytes handed to the reflectively selected decoder. -/
structure MjsLogItem where
  name : String
  data : Bytes
  deriving DecidableEq

/-- Python `raw.name.split(dot)[2]`: the third dot-separated component of a
wrapper name such as `.lq.RecordNewRound` (wrapper names produced by the
service always have at least three components). -/
def thirdDotComponent (s : String) : String :=
  String.mk ((pySplitChar '.' s.data).getD 2 [])

/-- Action-list construction of `fetchLogs`, exactly as the code branches:
the flat records list is used only when the version is before the cutoff AND
the records list is non-empty; otherwise the structured entries with a
non-empty result are used. -/
def fetchLogs_actionList (parseW : Bytes → Wrapper)
    (payload : GameDetailRecords) : List MjsLogItem :=
  if payload.version < 210715 ∧ payload.records.length > 0 then
    payload.records.map (fun v =>
      { name := thirdDotComponent (parseW v).name, data := (parseW v).data })
  else
    (payload.actions.filter (fun a => a.result ≠ [])).map (fun a =>
      { name := thirdDotComponent (parseW a.result).name
        data := (parseW a.result).data })

/-- The decoding rule exactly as claim C6 states it: branch on the embedded
version number alone. -/
def fetchLogs_actionList_claimed (parseW : Bytes → Wrapper)
    (payload : GameDetailRecords) : List MjsLogItem :=
  if payload.version < 210715 then
    payload.records.map (fun v =>
      { name := thirdDotComponent (parseW v).name, data := (parseW v).data })
  else
    (payload.actions.filter (fun a => a.result ≠ [])).map (fun a =>
      { name := thirdDotComponent (parseW a.result).name
        data := (parseW a.result).data })

/-- A concrete wrapper decoder for the counterexample. -/
def parseWx : Bytes → Wrapper := fun b => { name := ".lq.RecordNewRound", data := b }

/-- A pre-cutoff payload whose flat records list is empty but which carries
one structured action entry with a non-empty result. -/
def payloadOldEmptyRecords : GameDetailRecords :=
  { version := 200000, records := [], actions := [{ result := [1] }] }

/-- Counterexample to C6 as stated: on a pre-cutoff payload with an empty
records list, the code does NOT build the action list from the flat records
(which would give the empty list) — it falls through to the structured
entries. -/
theorem C6_actionList_counterexample :
    fetchLogs_actionList parseWx payloadOldEmptyRecords ≠
      fetchLogs_actionList_claimed parseWx payloadOldEmptyRecords := by
  decide

/-- C6 amended: the flat records list is used exactly when the version is
before the cutoff 210715 and the records list is non-empty, each wrapper
decoded by the third dot-separated component of its name; in every other
case (version at/after the cutoff, or an empty records list) the action list
is built from the structured action entries with a non-empty result,
unwrapped the same way, preserving original order. -/
theorem C6_actionList_version_branch (parseW : Bytes → Wrapper)
    (payload : GameDetailRecords) :
    (payload.version < 210715 ∧ payload.records ≠ [] →
      fetchLogs_actionList parseW payload = payload.records.map (fun v =>
        { name := thirdDotComponent (parseW v).name
          data := (parseW v).data })) ∧
    (210715 ≤ payload.version ∨ payload.records = [] →
      fetchLogs_actionList parseW payload =
        (payload.actions.filter (fun a => a.result ≠ [])).map (fun a =>
          { name := thirdDotComponent (parseW a.result).name
            data := (parseW a.result).data })) := by
  constructor
  · intro ⟨hv, hr⟩
    rw [fetchLogs_actionList, if_pos ⟨hv, List.length_pos.mpr hr⟩]
  · intro h
    rw [fetchLogs_actionList, if_neg]
    rintro ⟨hv, hr⟩
    rcases h with h | h
    · exact absurd hv (by omega)
    · rw [h] at hr
      exact absurd hr (by simp)

/-- A post-cutoff payload with structured action entries, one of them with
an empty result. -/
def payloadNew : GameDetailRecords :=
  { version := 210715, records := [[9]]
    actions := [{ result := [1] }, { result := [] }, { result := [2] }] }

/-- A pre-cutoff payload with a non-empty flat records list. -/
def payloadOld : GameDetailRecords :=
  { version := 200000, records := [[3], [4]], actions := [{ result := [5] }] }

/-- Witness for the amended C6: the pre-cutoff payload with records decodes
from the records (two entries), and the at-cutoff payload decodes from the
two structured entries with a non-empty result, in order. -/
theorem C6_actionList_version_branch_witness :
    fetchLogs_actionList parseWx payloadOld =
      [{ name := "RecordNewRound", data := [3] },
       { name := "RecordNewRound", data := [4] }] ∧
    fetchLogs_actionList parseWx payloadNew =
      [{ name := "RecordNewRound", data := [1] },
       { name := "RecordNewRound", data := [2] }] := by
  constructor
  · rw [(C6_actionList_version_branch parseWx payloadOld).1
      ⟨by decide, by decide⟩]
    rfl
  · rw [(C6_actionList_version_branch parseWx payloadNew).2
      (Or.inl (by decide))]
    rfl

/-! ## Notification worker scheduling (C2)

Embeds the worker loop `MajsoulConnection.process` (majsoul.py lines
372-376) together with the enqueueing in `handle_notify` (lines 132-145):
NOTIFY envelopes are enqueued in arrival order via `put_nowait`, and the
worker runs

    while True:
        data = await self.queue.get()
        asyncio.create_task(data)
        self.queue.task_done()

so each dequeued handler coroutine is STARTED as an independent task and is
never awaited by the worker: the cooperative scheduler may interleave the
steps of two started handlers at their await points.  The model below keeps
the FIFO queue (handler index = arrival order), the set of started tasks
with their remaining step counts, and a nondeterministic scheduler driven by
an explicit choice list. -/

/-- Scheduler state: handler indices still queued (FIFO, arrival order) and
started tasks paired with their remaining step counts. -/
structure WorkerState where
  queue : List Nat
  running : List (Nat × Nat)
  deriving DecidableEq

/-- Observable events: the worker starting handler `i` as a task
(`asyncio.create_task`), and a started handler `i` executing one atomic
step. -/
inductive WEvent where
  | spawn (i : Nat)
  | exec (i : Nat)
  deriving DecidableEq

/-- One scheduler choice: `none` schedules the worker loop (dequeue and
create a task), `some k` schedules the `k`-th started task for one step.  A
choice that cannot run (empty queue, finished task) produces no event. -/
def workerStep (steps : Nat → Nat) (s : WorkerState) :
    Option Nat → Option (WorkerState × WEvent)
  | none =>
    match s.queue with
    | [] => none
    | i :: rest =>
      some ({ queue := rest, running := s.running ++ [(i, steps i)] },
        .spawn i)
  | some k =>
    match s.running[k]? with
    | some (i, n + 1) =>
      some ({ s with running := s.running.set k (i, n) }, .exec i)
    | _ => none

/-- Run of the scheduler over a list of choices, collecting the trace of
events. -/
def workerRun (steps : Nat → Nat) :
    WorkerState → List (Option Nat) → List WEvent
  | _, [] => []
  | s, c :: cs =>
    match workerStep steps s c with
    | none => workerRun steps s cs
    | some (s', e) => e :: workerRun steps s' cs

/-- Boolean subsequence test on traces. -/
def isSubtraceOf : List WEvent → List WEvent → Bool
  | [], _ => true
  | _ :: _, [] => false
  | a :: as, b :: bs =>
    if a = b then  isSubtraceOf as bs else  isSubtraceOf (a :: as) bs

/-- The claim C2 as stated, for one trace: the steps of two different
notification handlers never interleave — no handler resumes after a step of
another handler once a step of its own has already occurred. -/
def execsNotInterleaved (tr : List WEvent) : Prop :=
  ∀ i j : Nat, i ≠ j →
    isSubtraceOf [WEvent.exec i, WEvent.exec j, WEvent.exec i] tr = false

/-- Counterexample to C2 as stated: with two queued handlers of two steps
each, the reachable schedule (spawn 0, step 0, spawn 1, step 1, step 0,
step 1) interleaves the two handlers. -/
theorem C2_notify_interleaving_counterexample :
    ¬ execsNotInterleaved
      (workerRun (fun _ => 2) { queue := [0, 1], running := [] }
        [none, some 0, none, some 1, some 0, some 1]) := by
  intro h
  have := h 0 1 (by decide)
  simp [workerRun, workerStep, isSubtraceOf] at this

/-- Handler indices in spawn order of a trace. -/
def spawnIds : List WEvent → List Nat
  | [] => []
  | .spawn i :: tr => i :: spawnIds tr
  | .exec _ :: tr => spawnIds tr

/-- C2 amended: the single worker dequeues and starts the notification
handlers in arrival order — in every reachable trace the spawned handler
indices form a prefix of the arrival queue — but each handler then runs as
an independently scheduled task, so the steps of two handlers of one
connection may interleave (see the counterexample). -/
theorem C2_spawn_in_arrival_order (steps : Nat → Nat) (queue : List Nat)
    (running : List (Nat × Nat)) (choices : List (Option Nat)) :
    ∃ k, spawnIds (workerRun steps { queue := queue, running := running }
      choices) = queue.take k := by
  induction choices generalizing queue running with
  | nil => exact ⟨0, rfl⟩
  | cons c cs ih =>
    cases c with
    | none =>
      cases queue with
      | nil =>
        simpa [workerRun, workerStep] using ih [] running
      | cons i rest =>
        obtain ⟨k, hk⟩ := ih rest (running ++ [(i, steps i)])
        exact ⟨k + 1, by simp [workerRun, workerStep, spawnIds, hk]⟩
    | some k0 =>
      cases hget : running[k0]? with
      | none =>
        simpa [workerRun, workerStep, hget] using ih queue running
      | some p =>
        obtain ⟨i, n⟩ := p
        cases n with
        | zero =>
          simpa [workerRun, workerStep, hget] using ih queue running
        | succ n =>
          obtain ⟨k, hk⟩ := ih queue (running.set k0 (i, n))
          exact ⟨k, by simp [workerRun, workerStep, hget, spawnIds, hk]⟩

end Majsoul
